import Mathlib

/-!
Verification of the FriendWatch session-synchronization core (src/server.js).

The server keeps a process-wide registry `rooms` mapping room identifiers to
room objects.  Each room holds `hostSocketId` (a socket id or null), a playback
`state` record `{playing, currentTime, lastUpdate}`, and `clients`, a JS `Set`
of socket ids (iterated in insertion order).  We model the registry as an
association list `List (String × Room)` (JS object keys are unique and keep
insertion order), the client set as a `List String` without duplicates by
construction (`setInsert` is a no-op on present elements, mirroring `Set.add`),
JS numbers holding media positions as `Int` (the claims only store and compare
them), and `Date.now()` timestamps as `Nat`.

Each socket event handler becomes a pure function from the registry and the
event's arguments to the new registry together with the list of emitted
events.  `socket.emit(e, p)` becomes a single event addressed to the sender;
`io.to(roomId).emit(...)` becomes one event per member of the room's client
set (a socket is in the socket.io room `roomId` exactly while it is in
`room.clients`: `socket.join` runs next to `clients.add`, and socket.io
removes a socket from its rooms on disconnect, when the handler deletes it
from `clients`).  The room's media-path fields (`videoPath`, `artPath`,
`subtitlePath`) are never read by any socket handler and are omitted.
-/

namespace FriendWatch

/-- Playback state of a room: `room.state` in server.js
(`{playing, currentTime, lastUpdate}`). -/
structure PlayState where
  playing : Bool
  currentTime : Int
  lastUpdate : Nat
deriving DecidableEq, Repr

/-- A room object as stored in the `rooms` registry (media-path fields
omitted; they are never read by the synchronization core). -/
structure Room where
  hostSocketId : Option String
  state : PlayState
  clients : List String
deriving DecidableEq, Repr

/-- The process-wide registry `rooms`: a JS object keyed by room id. -/
abbrev Rooms := List (String × Room)

/-- One outbound socket event, tagged with the socket id it is delivered to. -/
inductive ServerEvent where
  | roomError (dst : String) (message : String)
  | role (dst : String) (r : String)
  | syncState (dst : String) (state : PlayState) (serverTime : Nat)
      (hostSocketId : Option String)
  | control (dst : String) (action : String) (currentTime : Int)
      (serverTime : Nat) (playing : Bool)
deriving DecidableEq, Repr

/-- `rooms[roomId]`: first (only) entry with the given key, if any. -/
def lookupRoom : Rooms → String → Option Room
  | [], _ => none
  | (k, r) :: t, roomId => if k = roomId then some r else lookupRoom t roomId

/-- Overwrite the room stored under a key (in-place mutation of the object
referenced by `rooms[roomId]`). -/
def updateRoom : Rooms → String → Room → Rooms
  | [], _, _ => []
  | (k, r) :: t, roomId, r' =>
      (if k = roomId then (k, r') else (k, r)) :: updateRoom t roomId r'

/-- `Set.add`: append if absent, no-op if present (insertion order kept). -/
def setInsert (s : List String) (x : String) : List String :=
  if x ∈ s then s else s ++ [x]

/-- `Set.delete`: remove the element, keeping the order of the rest. -/
def setDelete (s : List String) (x : String) : List String :=
  s.filter (fun y => y ≠ x)

/-- The room freshly stored by `app.post('/create')`:
`hostSocketId: null, state: {playing: false, currentTime: 0,
lastUpdate: Date.now()}, clients: new Set()`. -/
def initialRoom (now : Nat) : Room :=
  { hostSocketId := none
    state := { playing := false, currentTime := 0, lastUpdate := now }
    clients := [] }

/-- `rooms[roomId] = {...}` in `app.post('/create')` (the uuid key is fresh,
so the append branch is the one taken in practice). -/
def createRoom (rooms : Rooms) (roomId : String) (now : Nat) : Rooms :=
  if lookupRoom rooms roomId = none then rooms ++ [(roomId, initialRoom now)]
  else updateRoom rooms roomId (initialRoom now)

/-- Handler of `socket.on('join-room')`. -/
def joinRoom (rooms : Rooms) (socketId roomId : String) (asHost : Bool)
    (now : Nat) : Rooms × List ServerEvent :=
  match lookupRoom rooms roomId with
  | none => (rooms, [ServerEvent.roomError socketId "Room not found."])
  | some room =>
      if 2 ≤ room.clients.length ∧ socketId ∉ room.clients then
        (rooms, [ServerEvent.roomError socketId "Room is full (2 users max)."])
      else
        let clients' := setInsert room.clients socketId
        if asHost = true ∨ room.hostSocketId = none then
          (updateRoom rooms roomId
            { room with clients := clients', hostSocketId := some socketId },
           [ServerEvent.role socketId "host"])
        else
          (updateRoom rooms roomId { room with clients := clients' },
           [ServerEvent.role socketId "guest",
            ServerEvent.syncState socketId room.state now room.hostSocketId])

/-- The `if action === ...` chain of the `control` handler: how one control
action transforms the playback state. -/
def applyAction (st : PlayState) (action : String) (currentTime : Int)
    (now : Nat) : PlayState :=
  if action = "play" then
    { playing := true, currentTime := currentTime, lastUpdate := now }
  else if action = "pause" then
    { playing := false, currentTime := currentTime, lastUpdate := now }
  else if action = "seek" then
    { st with currentTime := currentTime, lastUpdate := now }
  else st

/-- Handler of `socket.on('control')`.  A missing room or a non-host sender
returns early with no events; otherwise the state is updated and a `control`
event is broadcast to every client of the room (`io.to(roomId).emit`),
carrying the post-update `playing` flag. -/
def controlEvent (rooms : Rooms) (socketId roomId action : String)
    (currentTime : Int) (now : Nat) : Rooms × List ServerEvent :=
  match lookupRoom rooms roomId with
  | none => (rooms, [])
  | some room =>
      if some socketId ≠ room.hostSocketId then (rooms, [])
      else
        let st' := applyAction room.state action currentTime now
        (updateRoom rooms roomId { room with state := st' },
         room.clients.map (fun c =>
           ServerEvent.control c action currentTime now st'.playing))

/-- Handler of `socket.on('request-sync')`: silent no-op on a missing room,
otherwise a `sync-state` snapshot to the requesting socket only. -/
def requestSync (rooms : Rooms) (socketId roomId : String) (now : Nat) :
    Rooms × List ServerEvent :=
  match lookupRoom rooms roomId with
  | none => (rooms, [])
  | some room =>
      (rooms,
       [ServerEvent.syncState socketId room.state now room.hostSocketId])

/-- The per-room body of the `disconnect` handler: delete the socket from
`clients`, migrate the host to the first remaining client
(`[...room.clients][0] || null`) when the host left, and signal deletion
(`none`) when the client set became empty. -/
def disconnectRoom (socketId : String) (room : Room) : Option Room :=
  if socketId ∈ room.clients then
    let clients' := setDelete room.clients socketId
    let host' := if room.hostSocketId = some socketId then clients'.head?
                 else room.hostSocketId
    if clients' = [] then none
    else some { room with clients := clients', hostSocketId := host' }
  else some room

/-- Handler of `socket.on('disconnect')`: scan every room, removing the
socket and deleting rooms that became empty. -/
def disconnect : Rooms → String → Rooms
  | [], _ => []
  | (k, r) :: t, socketId =>
      match disconnectRoom socketId r with
      | none => disconnect t socketId
      | some r' => (k, r') :: disconnect t socketId

/-- One inbound event, for reasoning about whole sessions. -/
inductive Op where
  | create (roomId : String) (now : Nat)
  | join (socketId roomId : String) (asHost : Bool) (now : Nat)
  | control (socketId roomId action : String) (currentTime : Int) (now : Nat)
  | requestSync (socketId roomId : String) (now : Nat)
  | disconnect (socketId : String)
deriving DecidableEq, Repr

/-- Dispatch one inbound event to its handler. -/
def step (rooms : Rooms) : Op → Rooms × List ServerEvent
  | Op.create roomId now => (createRoom rooms roomId now, [])
  | Op.join s r aH now => joinRoom rooms s r aH now
  | Op.control s r a ct now => controlEvent rooms s r a ct now
  | Op.requestSync s r now => requestSync rooms s r now
  | Op.disconnect s => (disconnect rooms s, [])

/-- The registry after a whole session of events, starting from the empty
registry of a fresh process. -/
def run (ops : List Op) : Rooms :=
  ops.foldl (fun rs op => (step rs op).1) []

/-- Every room of the registry has at most two clients. -/
def membersOk (rooms : Rooms) : Prop :=
  ∀ p ∈ rooms, p.2.clients.length ≤ 2

/-- Every room of the registry has a non-negative stored position. -/
def posOk (rooms : Rooms) : Prop :=
  ∀ p ∈ rooms, 0 ≤ p.2.state.currentTime

/-- The inbound event carries a non-negative media position (trivially true
for every event other than `control`). -/
def Op.ctlNonneg : Op → Prop
  | Op.control _ _ _ ct _ => 0 ≤ ct
  | _ => True

/-! ### Basic lemmas about the registry operations -/

lemma length_setDelete_le (s : List String) (x : String) :
    (setDelete s x).length ≤ s.length :=
  List.length_filter_le _ _

lemma length_setInsert_le {s : List String} {x : String} (hlen : s.length ≤ 2)
    (hadm : ¬(2 ≤ s.length ∧ x ∉ s)) : (setInsert s x).length ≤ 2 := by
  unfold setInsert
  split
  · exact hlen
  · rename_i hx
    rw [List.length_append]
    by_cases h2 : 2 ≤ s.length
    · push_neg at hadm
      exact absurd (hadm h2) hx
    · simp only [List.length_cons, List.length_nil]
      omega

lemma lookupRoom_cons_self (k : String) (r : Room) (t : Rooms) :
    lookupRoom ((k, r) :: t) k = some r := by
  rw [lookupRoom]
  exact if_pos rfl

lemma lookupRoom_cons_ne {k roomId : String} (r : Room) (t : Rooms)
    (hk : k ≠ roomId) : lookupRoom ((k, r) :: t) roomId = lookupRoom t roomId := by
  rw [lookupRoom]
  exact if_neg hk

lemma lookupRoom_mem {rooms : Rooms} {roomId : String} {room : Room}
    (h : lookupRoom rooms roomId = some room) : (roomId, room) ∈ rooms := by
  induction rooms with
  | nil => simp [lookupRoom] at h
  | cons p t ih =>
    obtain ⟨k, q⟩ := p
    by_cases hk : k = roomId
    · subst hk
      rw [lookupRoom_cons_self] at h
      simp only [Option.some.injEq] at h
      subst h
      exact List.mem_cons_self _ _
    · rw [lookupRoom_cons_ne _ _ hk] at h
      exact List.mem_cons_of_mem _ (ih h)

lemma lookupRoom_eq_none_of_not_mem {rooms : Rooms} {roomId : String}
    (h : roomId ∉ rooms.map Prod.fst) : lookupRoom rooms roomId = none := by
  induction rooms with
  | nil => rfl
  | cons p t ih =>
    obtain ⟨k, q⟩ := p
    simp only [List.map_cons, List.mem_cons, not_or] at h
    rw [lookupRoom_cons_ne _ _ (fun hk => h.1 hk.symm)]
    exact ih h.2

lemma updateRoom_cons_self (k : String) (r r' : Room) (t : Rooms) :
    updateRoom ((k, r) :: t) k r' = (k, r') :: updateRoom t k r' := by
  rw [updateRoom, if_pos rfl]

lemma updateRoom_cons_ne {k roomId : String} (r r' : Room) (t : Rooms)
    (hk : k ≠ roomId) :
    updateRoom ((k, r) :: t) roomId r' = (k, r) :: updateRoom t roomId r' := by
  rw [updateRoom, if_neg hk]

lemma updateRoom_eq_of_lookup_none {rooms : Rooms} {roomId : String} {r : Room}
    (h : lookupRoom rooms roomId = none) : updateRoom rooms roomId r = rooms := by
  induction rooms with
  | nil => rfl
  | cons p t ih =>
    obtain ⟨k, q⟩ := p
    by_cases hk : k = roomId
    · subst hk
      rw [lookupRoom_cons_self] at h
      exact absurd h (by simp)
    · rw [lookupRoom_cons_ne _ _ hk] at h
      rw [updateRoom_cons_ne _ _ _ hk, ih h]

lemma lookupRoom_updateRoom_self {rooms : Rooms} {roomId : String}
    {room r : Room} (h : lookupRoom rooms roomId = some room) :
    lookupRoom (updateRoom rooms roomId r) roomId = some r := by
  induction rooms with
  | nil => simp [lookupRoom] at h
  | cons p t ih =>
    obtain ⟨k, q⟩ := p
    by_cases hk : k = roomId
    · subst hk
      rw [updateRoom_cons_self, lookupRoom_cons_self]
    · rw [lookupRoom_cons_ne _ _ hk] at h
      rw [updateRoom_cons_ne _ _ _ hk, lookupRoom_cons_ne _ _ hk]
      exact ih h

lemma updateRoom_self {rooms : Rooms} {roomId : String} {room : Room}
    (hnd : (rooms.map Prod.fst).Nodup)
    (h : lookupRoom rooms roomId = some room) :
    updateRoom rooms roomId room = rooms := by
  induction rooms with
  | nil => rfl
  | cons p t ih =>
    obtain ⟨k, q⟩ := p
    simp only [List.map_cons, List.nodup_cons] at hnd
    by_cases hk : k = roomId
    · subst hk
      rw [lookupRoom_cons_self] at h
      simp only [Option.some.injEq] at h
      subst h
      rw [updateRoom_cons_self,
        updateRoom_eq_of_lookup_none (lookupRoom_eq_none_of_not_mem hnd.1)]
    · rw [lookupRoom_cons_ne _ _ hk] at h
      rw [updateRoom_cons_ne _ _ _ hk, ih hnd.2 h]

lemma mem_updateRoom {rooms : Rooms} {roomId : String} {r : Room}
    {p : String × Room} (hp : p ∈ updateRoom rooms roomId r) :
    p.2 = r ∨ p ∈ rooms := by
  induction rooms with
  | nil => simp [updateRoom] at hp
  | cons q t ih =>
    obtain ⟨k, q'⟩ := q
    rw [updateRoom] at hp
    rcases List.mem_cons.1 hp with h1 | h1
    · split at h1
      · subst h1; left; rfl
      · subst h1; right; exact List.mem_cons_self _ _
    · rcases ih h1 with h2 | h2
      · left; exact h2
      · right; exact List.mem_cons_of_mem _ h2

lemma disconnectRoom_eq_some {s : String} {r r' : Room}
    (h : disconnectRoom s r = some r') :
    r' = r ∨ (r'.clients = setDelete r.clients s ∧ r'.state = r.state) := by
  by_cases hm : s ∈ r.clients
  · by_cases he : setDelete r.clients s = []
    · simp only [disconnectRoom, if_pos hm, if_pos he] at h
      exact absurd h (by simp)
    · simp only [disconnectRoom, if_pos hm, if_neg he,
        Option.some.injEq] at h
      subst h
      exact Or.inr ⟨rfl, rfl⟩
  · simp only [disconnectRoom, if_neg hm, Option.some.injEq] at h
    subst h
    exact Or.inl rfl

lemma mem_disconnect {rooms : Rooms} {s : String} {p : String × Room}
    (hp : p ∈ disconnect rooms s) :
    ∃ q ∈ rooms,
      (p.2.clients = q.2.clients ∨ p.2.clients = setDelete q.2.clients s) ∧
      p.2.state = q.2.state := by
  induction rooms with
  | nil => simp [disconnect] at hp
  | cons q t ih =>
    obtain ⟨k, r⟩ := q
    rw [disconnect] at hp
    rcases hr : disconnectRoom s r with _ | r'
    · rw [hr] at hp
      obtain ⟨q', hq', hprop⟩ := ih hp
      exact ⟨q', List.mem_cons_of_mem _ hq', hprop⟩
    · rw [hr] at hp
      rcases List.mem_cons.1 hp with h1 | h1
      · subst h1
        refine ⟨(k, r), List.mem_cons_self _ _, ?_⟩
        rcases disconnectRoom_eq_some hr with h2 | h2
        · subst h2
          exact ⟨Or.inl rfl, rfl⟩
        · exact ⟨Or.inr h2.1, h2.2⟩
      · obtain ⟨q', hq', hprop⟩ := ih h1
        exact ⟨q', List.mem_cons_of_mem _ hq', hprop⟩

lemma lookupRoom_disconnect_some {rooms : Rooms} {s roomId : String}
    {room r' : Room} (hlk : lookupRoom rooms roomId = some room)
    (hr : disconnectRoom s room = some r') :
    lookupRoom (disconnect rooms s) roomId = some r' := by
  induction rooms with
  | nil => simp [lookupRoom] at hlk
  | cons q t ih =>
    obtain ⟨k, r⟩ := q
    by_cases hk : k = roomId
    · subst hk
      rw [lookupRoom_cons_self] at hlk
      simp only [Option.some.injEq] at hlk
      subst hlk
      rw [disconnect, hr, lookupRoom_cons_self]
    · rw [lookupRoom_cons_ne _ _ hk] at hlk
      rw [disconnect]
      rcases disconnectRoom s r with _ | r''
      · exact ih hlk
      · rw [lookupRoom_cons_ne _ _ hk]
        exact ih hlk

lemma lookupRoom_disconnect_none_of_not_mem {rooms : Rooms} {s roomId : String}
    (h : roomId ∉ rooms.map Prod.fst) :
    lookupRoom (disconnect rooms s) roomId = none := by
  induction rooms with
  | nil => rfl
  | cons q t ih =>
    obtain ⟨k, r⟩ := q
    simp only [List.map_cons, List.mem_cons, not_or] at h
    rw [disconnect]
    rcases disconnectRoom s r with _ | r'
    · exact ih h.2
    · rw [lookupRoom_cons_ne _ _ (fun hk => h.1 hk.symm)]
      exact ih h.2

lemma lookupRoom_disconnect_none {rooms : Rooms} {s roomId : String}
    {room : Room} (hnd : (rooms.map Prod.fst).Nodup)
    (hlk : lookupRoom rooms roomId = some room)
    (hr : disconnectRoom s room = none) :
    lookupRoom (disconnect rooms s) roomId = none := by
  induction rooms with
  | nil => rfl
  | cons q t ih =>
    obtain ⟨k, r⟩ := q
    simp only [List.map_cons, List.nodup_cons] at hnd
    by_cases hk : k = roomId
    · subst hk
      rw [lookupRoom_cons_self] at hlk
      simp only [Option.some.injEq] at hlk
      subst hlk
      rw [disconnect, hr]
      exact lookupRoom_disconnect_none_of_not_mem hnd.1
    · rw [lookupRoom_cons_ne _ _ hk] at hlk
      rw [disconnect]
      rcases disconnectRoom s r with _ | r'
      · exact ih hnd.2 hlk
      · rw [lookupRoom_cons_ne _ _ hk]
        exact ih hnd.2 hlk

/-! ### Unfolding lemmas for the event handlers -/

lemma applyAction_play (st : PlayState) (ct : Int) (now : Nat) :
    applyAction st "play" ct now
      = { playing := true, currentTime := ct, lastUpdate := now } := rfl

lemma applyAction_pause (st : PlayState) (ct : Int) (now : Nat) :
    applyAction st "pause" ct now
      = { playing := false, currentTime := ct, lastUpdate := now } := rfl

lemma applyAction_seek (st : PlayState) (ct : Int) (now : Nat) :
    applyAction st "seek" ct now
      = { playing := st.playing, currentTime := ct, lastUpdate := now } := rfl

lemma applyAction_other (st : PlayState) {action : String} (ct : Int)
    (now : Nat) (h1 : action ≠ "play") (h2 : action ≠ "pause")
    (h3 : action ≠ "seek") : applyAction st action ct now = st := by
  unfold applyAction
  rw [if_neg h1, if_neg h2, if_neg h3]

lemma applyAction_currentTime (st : PlayState) (a : String) (ct : Int)
    (now : Nat) :
    (applyAction st a ct now).currentTime = ct ∨
      (applyAction st a ct now).currentTime = st.currentTime := by
  unfold applyAction
  by_cases h1 : a = "play"
  · rw [if_pos h1]; exact Or.inl rfl
  · rw [if_neg h1]
    by_cases h2 : a = "pause"
    · rw [if_pos h2]; exact Or.inl rfl
    · rw [if_neg h2]
      by_cases h3 : a = "seek"
      · rw [if_pos h3]; exact Or.inl rfl
      · rw [if_neg h3]; exact Or.inr rfl

lemma joinRoom_not_found {rooms : Rooms} {roomId : String}
    (socketId : String) (asHost : Bool) (now : Nat)
    (h : lookupRoom rooms roomId = none) :
    joinRoom rooms socketId roomId asHost now
      = (rooms, [ServerEvent.roomError socketId "Room not found."]) := by
  unfold joinRoom
  rw [h]

lemma joinRoom_full {rooms : Rooms} {roomId socketId : String} {room : Room}
    (asHost : Bool) (now : Nat) (h : lookupRoom rooms roomId = some room)
    (hfull : 2 ≤ room.clients.length ∧ socketId ∉ room.clients) :
    joinRoom rooms socketId roomId asHost now
      = (rooms,
         [ServerEvent.roomError socketId "Room is full (2 users max)."]) := by
  simp only [joinRoom, h]
  rw [if_pos hfull]

lemma joinRoom_admit_host {rooms : Rooms} {roomId socketId : String}
    {room : Room} {asHost : Bool} (now : Nat)
    (h : lookupRoom rooms roomId = some room)
    (hadm : ¬(2 ≤ room.clients.length ∧ socketId ∉ room.clients))
    (hh : asHost = true ∨ room.hostSocketId = none) :
    joinRoom rooms socketId roomId asHost now
      = (updateRoom rooms roomId
          { room with clients := setInsert room.clients socketId,
                      hostSocketId := some socketId },
         [ServerEvent.role socketId "host"]) := by
  simp only [joinRoom, h]
  rw [if_neg hadm, if_pos hh]

lemma joinRoom_admit_guest {rooms : Rooms} {roomId socketId : String}
    {room : Room} {asHost : Bool} (now : Nat)
    (h : lookupRoom rooms roomId = some room)
    (hadm : ¬(2 ≤ room.clients.length ∧ socketId ∉ room.clients))
    (hh : ¬(asHost = true ∨ room.hostSocketId = none)) :
    joinRoom rooms socketId roomId asHost now
      = (updateRoom rooms roomId
          { room with clients := setInsert room.clients socketId },
         [ServerEvent.role socketId "guest",
          ServerEvent.syncState socketId room.state now room.hostSocketId]) := by
  simp only [joinRoom, h]
  rw [if_neg hadm, if_neg hh]

lemma controlEvent_not_found {rooms : Rooms} {roomId : String}
    (socketId action : String) (ct : Int) (now : Nat)
    (h : lookupRoom rooms roomId = none) :
    controlEvent rooms socketId roomId action ct now = (rooms, []) := by
  unfold controlEvent
  rw [h]

lemma controlEvent_nonhost {rooms : Rooms} {roomId socketId : String}
    {room : Room} (action : String) (ct : Int) (now : Nat)
    (h : lookupRoom rooms roomId = some room)
    (hh : some socketId ≠ room.hostSocketId) :
    controlEvent rooms socketId roomId action ct now = (rooms, []) := by
  simp only [controlEvent, h]
  rw [if_pos hh]

lemma controlEvent_host {rooms : Rooms} {roomId socketId : String}
    {room : Room} (action : String) (ct : Int) (now : Nat)
    (h : lookupRoom rooms roomId = some room)
    (hhost : room.hostSocketId = some socketId) :
    controlEvent rooms socketId roomId action ct now
      = (updateRoom rooms roomId
          { room with state := applyAction room.state action ct now },
         room.clients.map (fun c => ServerEvent.control c action ct now
           (applyAction room.state action ct now).playing)) := by
  simp only [controlEvent, h, hhost]
  rw [if_neg (not_ne_iff.mpr rfl)]

lemma requestSync_found {rooms : Rooms} {roomId : String} {room : Room}
    (socketId : String) (now : Nat)
    (h : lookupRoom rooms roomId = some room) :
    requestSync rooms socketId roomId now
      = (rooms, [ServerEvent.syncState socketId room.state now
          room.hostSocketId]) := by
  unfold requestSync
  rw [h]

lemma requestSync_not_found {rooms : Rooms} {roomId : String}
    (socketId : String) (now : Nat) (h : lookupRoom rooms roomId = none) :
    requestSync rooms socketId roomId now = (rooms, []) := by
  unfold requestSync
  rw [h]

lemma requestSync_fst (rooms : Rooms) (socketId roomId : String) (now : Nat) :
    (requestSync rooms socketId roomId now).1 = rooms := by
  rcases h : lookupRoom rooms roomId with _ | room
  · rw [requestSync_not_found socketId now h]
  · rw [requestSync_found socketId now h]

/-! ### Invariant: a room never holds more than two clients -/

lemma membersOk_createRoom {rooms : Rooms} (h : membersOk rooms)
    (roomId : String) (now : Nat) : membersOk (createRoom rooms roomId now) := by
  intro p hp
  unfold createRoom at hp
  split at hp
  · rcases List.mem_append.1 hp with h1 | h1
    · exact h p h1
    · simp only [List.mem_singleton] at h1
      subst h1
      simp [initialRoom]
  · rcases mem_updateRoom hp with h1 | h1
    · rw [h1]
      simp [initialRoom]
    · exact h p h1

lemma membersOk_joinRoom {rooms : Rooms} (h : membersOk rooms)
    (socketId roomId : String) (asHost : Bool) (now : Nat) :
    membersOk (joinRoom rooms socketId roomId asHost now).1 := by
  intro p hp
  rcases hlk : lookupRoom rooms roomId with _ | room
  · rw [joinRoom_not_found socketId asHost now hlk] at hp
    exact h p hp
  · by_cases hfull : 2 ≤ room.clients.length ∧ socketId ∉ room.clients
    · rw [joinRoom_full asHost now hlk hfull] at hp
      exact h p hp
    · by_cases hh : asHost = true ∨ room.hostSocketId = none
      · rw [joinRoom_admit_host now hlk hfull hh] at hp
        rcases mem_updateRoom hp with h1 | h1
        · rw [h1]
          exact length_setInsert_le (h _ (lookupRoom_mem hlk)) hfull
        · exact h p h1
      · rw [joinRoom_admit_guest now hlk hfull hh] at hp
        rcases mem_updateRoom hp with h1 | h1
        · rw [h1]
          exact length_setInsert_le (h _ (lookupRoom_mem hlk)) hfull
        · exact h p h1

lemma membersOk_controlEvent {rooms : Rooms} (h : membersOk rooms)
    (socketId roomId action : String) (ct : Int) (now : Nat) :
    membersOk (controlEvent rooms socketId roomId action ct now).1 := by
  intro p hp
  rcases hlk : lookupRoom rooms roomId with _ | room
  · rw [controlEvent_not_found socketId action ct now hlk] at hp
    exact h p hp
  · by_cases hh : some socketId ≠ room.hostSocketId
    · rw [controlEvent_nonhost action ct now hlk hh] at hp
      exact h p hp
    · rw [not_ne_iff] at hh
      rw [controlEvent_host action ct now hlk hh.symm] at hp
      rcases mem_updateRoom hp with h1 | h1
      · rw [h1]
        exact h _ (lookupRoom_mem hlk)
      · exact h p h1

lemma membersOk_disconnect {rooms : Rooms} (h : membersOk rooms)
    (socketId : String) : membersOk (disconnect rooms socketId) := by
  intro p hp
  obtain ⟨q, hq, hcl, _⟩ := mem_disconnect hp
  rcases hcl with h1 | h1
  · rw [h1]
    exact h q hq
  · rw [h1]
    exact le_trans (length_setDelete_le _ _) (h q hq)

lemma membersOk_step {rooms : Rooms} (h : membersOk rooms) (op : Op) :
    membersOk (step rooms op).1 := by
  cases op with
  | create roomId now => exact membersOk_createRoom h roomId now
  | join s r aH now => exact membersOk_joinRoom h s r aH now
  | control s r a ct now => exact membersOk_controlEvent h s r a ct now
  | requestSync s r now =>
      show membersOk (requestSync rooms s r now).1
      rw [requestSync_fst]
      exact h
  | disconnect s => exact membersOk_disconnect h s

lemma membersOk_foldl : ∀ (ops : List Op) (rooms : Rooms), membersOk rooms →
    membersOk (ops.foldl (fun rs op => (step rs op).1) rooms)
  | [], _, h => h
  | op :: t, _, h => membersOk_foldl t _ (membersOk_step h op)

lemma membersOk_run (ops : List Op) : membersOk (run ops) :=
  membersOk_foldl ops [] (fun p hp => absurd hp (List.not_mem_nil p))

/-! ### Invariant: position stays non-negative for non-negative inputs -/

lemma posOk_createRoom {rooms : Rooms} (h : posOk rooms)
    (roomId : String) (now : Nat) : posOk (createRoom rooms roomId now) := by
  intro p hp
  unfold createRoom at hp
  split at hp
  · rcases List.mem_append.1 hp with h1 | h1
    · exact h p h1
    · simp only [List.mem_singleton] at h1
      subst h1
      simp [initialRoom]
  · rcases mem_updateRoom hp with h1 | h1
    · rw [h1]
      simp [initialRoom]
    · exact h p h1

lemma posOk_joinRoom {rooms : Rooms} (h : posOk rooms)
    (socketId roomId : String) (asHost : Bool) (now : Nat) :
    posOk (joinRoom rooms socketId roomId asHost now).1 := by
  intro p hp
  rcases hlk : lookupRoom rooms roomId with _ | room
  · rw [joinRoom_not_found socketId asHost now hlk] at hp
    exact h p hp
  · by_cases hfull : 2 ≤ room.clients.length ∧ socketId ∉ room.clients
    · rw [joinRoom_full asHost now hlk hfull] at hp
      exact h p hp
    · by_cases hh : asHost = true ∨ room.hostSocketId = none
      · rw [joinRoom_admit_host now hlk hfull hh] at hp
        rcases mem_updateRoom hp with h1 | h1
        · rw [h1]
          exact h _ (lookupRoom_mem hlk)
        · exact h p h1
      · rw [joinRoom_admit_guest now hlk hfull hh] at hp
        rcases mem_updateRoom hp with h1 | h1
        · rw [h1]
          exact h _ (lookupRoom_mem hlk)
        · exact h p h1

lemma posOk_controlEvent {rooms : Rooms} (h : posOk rooms)
    (socketId roomId action : String) {ct : Int} (now : Nat) (hct : 0 ≤ ct) :
    posOk (controlEvent rooms socketId roomId action ct now).1 := by
  intro p hp
  rcases hlk : lookupRoom rooms roomId with _ | room
  · rw [controlEvent_not_found socketId action ct now hlk] at hp
    exact h p hp
  · by_cases hh : some socketId ≠ room.hostSocketId
    · rw [controlEvent_nonhost action ct now hlk hh] at hp
      exact h p hp
    · rw [not_ne_iff] at hh
      rw [controlEvent_host action ct now hlk hh.symm] at hp
      rcases mem_updateRoom hp with h1 | h1
      · rw [h1]
        show 0 ≤ (applyAction room.state action ct now).currentTime
        rcases applyAction_currentTime room.state action ct now with h2 | h2
        · rw [h2]; exact hct
        · rw [h2]; exact h _ (lookupRoom_mem hlk)
      · exact h p h1

lemma posOk_disconnect {rooms : Rooms} (h : posOk rooms) (socketId : String) :
    posOk (disconnect rooms socketId) := by
  intro p hp
  obtain ⟨q, hq, _, hst⟩ := mem_disconnect hp
  rw [hst]
  exact h q hq

lemma posOk_step {rooms : Rooms} (h : posOk rooms) {op : Op}
    (hop : op.ctlNonneg) : posOk (step rooms op).1 := by
  cases op with
  | create roomId now => exact posOk_createRoom h roomId now
  | join s r aH now => exact posOk_joinRoom h s r aH now
  | control s r a ct now => exact posOk_controlEvent h s r a now hop
  | requestSync s r now =>
      show posOk (requestSync rooms s r now).1
      rw [requestSync_fst]
      exact h
  | disconnect s => exact posOk_disconnect h s

lemma posOk_foldl : ∀ (ops : List Op) (rooms : Rooms), posOk rooms →
    (∀ op ∈ ops, op.ctlNonneg) →
    posOk (ops.foldl (fun rs op => (step rs op).1) rooms)
  | [], _, h, _ => h
  | op :: t, _, h, hops =>
      posOk_foldl t _ (posOk_step h (hops op (List.mem_cons_self _ _)))
        (fun o ho => hops o (List.mem_cons_of_mem _ ho))

lemma posOk_run (ops : List Op) (hops : ∀ op ∈ ops, op.ctlNonneg) :
    posOk (run ops) :=
  posOk_foldl ops [] (fun p hp => absurd hp (List.not_mem_nil p)) hops

lemma setDelete_singleton_self (s : String) : setDelete [s] s = [] := by
  simp [setDelete]

/-! ### Claim theorems -/

/-- Claim C1: for every room and every inbound `control` event whose sender
is not the room's current host (including the case of a hostless room), the
event is silently discarded — the registry, hence the room's playback state
`{playing, currentTime, lastUpdate}`, is unchanged, no `control` broadcast is
emitted to any member, and no error event is returned to the sender. -/
theorem claim_C1_nonhost_control_discarded
    (rooms : Rooms) (roomId socketId action : String) (room : Room)
    (ct : Int) (now : Nat)
    (hlk : lookupRoom rooms roomId = some room)
    (hns : some socketId ≠ room.hostSocketId) :
    controlEvent rooms socketId roomId action ct now = (rooms, []) :=
  controlEvent_nonhost action ct now hlk hns

/-- Witness for C1: the guest "g" of a hosted room sends `pause`; the
registry is untouched and nothing is emitted. -/
theorem claim_C1_witness :
    controlEvent
      [("r", { hostSocketId := some "h",
               state := { playing := true, currentTime := 3, lastUpdate := 5 },
               clients := ["h", "g"] })] "g" "r" "pause" 9 7
      = ([("r", { hostSocketId := some "h",
                  state := { playing := true, currentTime := 3, lastUpdate := 5 },
                  clients := ["h", "g"] })], []) :=
  claim_C1_nonhost_control_discarded _ _ _ _ _ _ _ rfl (by decide)

/-- Claim C2: over every event sequence from process start, no room's client
set ever exceeds two members; and a join by a third distinct connection into
a room that already has two members fails with the `RoomFull` error sent to
the requesting connection only, leaving the registry unchanged. -/
theorem claim_C2_room_capacity :
    (∀ ops : List Op, ∀ p ∈ run ops, p.2.clients.length ≤ 2) ∧
    (∀ (rooms : Rooms) (roomId socketId : String) (room : Room)
       (asHost : Bool) (now : Nat),
       lookupRoom rooms roomId = some room →
       2 ≤ room.clients.length → socketId ∉ room.clients →
       joinRoom rooms socketId roomId asHost now
         = (rooms,
            [ServerEvent.roomError socketId "Room is full (2 users max)."])) :=
  ⟨fun ops => membersOk_run ops,
   fun _ _ _ _ asHost now hlk h2 hn => joinRoom_full asHost now hlk ⟨h2, hn⟩⟩

/-- Witness for C2: the room reached by create/join/join has two clients,
and a third socket "x" is rejected with `RoomFull`. -/
theorem claim_C2_witness :
    (("r", { hostSocketId := some "h",
             state := { playing := false, currentTime := 0, lastUpdate := 0 },
             clients := ["h", "g"] }) : String × Room).2.clients.length ≤ 2 ∧
    joinRoom
      [("r", { hostSocketId := some "h",
               state := { playing := false, currentTime := 0, lastUpdate := 0 },
               clients := ["h", "g"] })] "x" "r" false 9
      = ([("r", { hostSocketId := some "h",
                  state := { playing := false, currentTime := 0,
                             lastUpdate := 0 },
                  clients := ["h", "g"] })],
         [ServerEvent.roomError "x" "Room is full (2 users max)."]) :=
  ⟨claim_C2_room_capacity.1
      [Op.create "r" 0, Op.join "h" "r" true 1, Op.join "g" "r" false 2]
      _ (by decide),
   claim_C2_room_capacity.2 _ _ _ _ false 9 rfl (by decide) (by decide)⟩

/-- Claim C3: a `control` event from the current host of an existing room:
`play` sets `playing := true, currentTime := ct, lastUpdate := now`; `pause`
sets `playing := false, currentTime := ct, lastUpdate := now`; `seek` sets
`currentTime := ct, lastUpdate := now` leaving `playing` unchanged; in each
case a `control {action, currentTime, serverTime := now, playing}` event is
sent to every member of the room's client set — including the issuing host,
as the last conjunct spells out. -/
theorem claim_C3_host_control_transitions
    (rooms : Rooms) (roomId socketId : String) (room : Room) (ct : Int)
    (now : Nat) (hlk : lookupRoom rooms roomId = some room)
    (hhost : room.hostSocketId = some socketId) :
    (controlEvent rooms socketId roomId "play" ct now
       = (updateRoom rooms roomId { room with state :=
            { playing := true, currentTime := ct, lastUpdate := now } },
          room.clients.map (fun c =>
            ServerEvent.control c "play" ct now true))) ∧
    (controlEvent rooms socketId roomId "pause" ct now
       = (updateRoom rooms roomId { room with state :=
            { playing := false, currentTime := ct, lastUpdate := now } },
          room.clients.map (fun c =>
            ServerEvent.control c "pause" ct now false))) ∧
    (controlEvent rooms socketId roomId "seek" ct now
       = (updateRoom rooms roomId { room with state :=
            { playing := room.state.playing, currentTime := ct,
              lastUpdate := now } },
          room.clients.map (fun c =>
            ServerEvent.control c "seek" ct now room.state.playing))) ∧
    (socketId ∈ room.clients →
       ServerEvent.control socketId "play" ct now true
         ∈ (controlEvent rooms socketId roomId "play" ct now).2) := by
  refine ⟨?_, ?_, ?_, ?_⟩
  · rw [controlEvent_host "play" ct now hlk hhost, applyAction_play]
  · rw [controlEvent_host "pause" ct now hlk hhost, applyAction_pause]
  · rw [controlEvent_host "seek" ct now hlk hhost, applyAction_seek]
  · intro hm
    rw [controlEvent_host "play" ct now hlk hhost]
    exact List.mem_map_of_mem _ hm

/-- Witness for C3: host "h" of a two-member room plays at position 10; the
state is updated and both members (host included) receive the broadcast. -/
theorem claim_C3_witness :
    controlEvent
      [("r", { hostSocketId := some "h",
               state := { playing := false, currentTime := 0, lastUpdate := 0 },
               clients := ["h", "g"] })] "h" "r" "play" 10 3
      = ([("r", { hostSocketId := some "h",
                  state := { playing := true, currentTime := 10,
                             lastUpdate := 3 },
                  clients := ["h", "g"] })],
         [ServerEvent.control "h" "play" 10 3 true,
          ServerEvent.control "g" "play" 10 3 true]) :=
  (claim_C3_host_control_transitions
    [("r", { hostSocketId := some "h",
             state := { playing := false, currentTime := 0, lastUpdate := 0 },
             clients := ["h", "g"] })] "r" "h"
    { hostSocketId := some "h",
      state := { playing := false, currentTime := 0, lastUpdate := 0 },
      clients := ["h", "g"] } 10 3 rfl rfl).1

/-- Claim C4: an admitted join into an existing room: if `asHost` is true or
the room has no host, the joining connection becomes host (overwriting any
previous host) and receives `role "host"`; otherwise it receives
`role "guest"` together with a `sync-state {state, serverTime, hostSocketId}`
snapshot. -/
theorem claim_C4_join_role_assignment
    (rooms : Rooms) (roomId socketId : String) (room : Room) (asHost : Bool)
    (now : Nat) (hlk : lookupRoom rooms roomId = some room)
    (hadm : ¬(2 ≤ room.clients.length ∧ socketId ∉ room.clients)) :
    ((asHost = true ∨ room.hostSocketId = none) →
       joinRoom rooms socketId roomId asHost now
         = (updateRoom rooms roomId
             { room with clients := setInsert room.clients socketId,
                         hostSocketId := some socketId },
            [ServerEvent.role socketId "host"])) ∧
    (∀ h : String, asHost = false → room.hostSocketId = some h →
       joinRoom rooms socketId roomId asHost now
         = (updateRoom rooms roomId
             { room with clients := setInsert room.clients socketId },
            [ServerEvent.role socketId "guest",
             ServerEvent.syncState socketId room.state now (some h)])) := by
  constructor
  · intro hh
    exact joinRoom_admit_host now hlk hadm hh
  · intro h hfalse hsome
    have hng : ¬(asHost = true ∨ room.hostSocketId = none) := by
      rintro (h1 | h1)
      · rw [hfalse] at h1
        exact Bool.false_ne_true h1
      · rw [hsome] at h1
        exact Option.noConfusion h1
    rw [joinRoom_admit_guest now hlk hadm hng, hsome]

/-- Witness for C4: "h" joins a fresh hostless room and becomes host; "g"
then joins without `asHost` and becomes guest with a snapshot. -/
theorem claim_C4_witness :
    joinRoom [("r", { hostSocketId := none,
                      state := { playing := false, currentTime := 0,
                                 lastUpdate := 0 },
                      clients := [] })] "h" "r" false 1
      = ([("r", { hostSocketId := some "h",
                  state := { playing := false, currentTime := 0,
                             lastUpdate := 0 },
                  clients := ["h"] })],
         [ServerEvent.role "h" "host"]) ∧
    joinRoom [("r", { hostSocketId := some "h",
                      state := { playing := false, currentTime := 0,
                                 lastUpdate := 0 },
                      clients := ["h"] })] "g" "r" false 2
      = ([("r", { hostSocketId := some "h",
                  state := { playing := false, currentTime := 0,
                             lastUpdate := 0 },
                  clients := ["h", "g"] })],
         [ServerEvent.role "g" "guest",
          ServerEvent.syncState "g"
            { playing := false, currentTime := 0, lastUpdate := 0 } 2
            (some "h")]) :=
  ⟨(claim_C4_join_role_assignment
      [("r", { hostSocketId := none,
               state := { playing := false, currentTime := 0,
                          lastUpdate := 0 },
               clients := [] })] "r" "h"
      { hostSocketId := none,
        state := { playing := false, currentTime := 0, lastUpdate := 0 },
        clients := [] } false 1 rfl (by decide)).1 (Or.inr rfl),
   (claim_C4_join_role_assignment
      [("r", { hostSocketId := some "h",
               state := { playing := false, currentTime := 0,
                          lastUpdate := 0 },
               clients := ["h"] })] "r" "g"
      { hostSocketId := some "h",
        state := { playing := false, currentTime := 0, lastUpdate := 0 },
        clients := ["h"] } false 2 rfl (by decide)).2 "h" rfl rfl⟩

/-- Claim C5: in a two-member room (clients `h` plus exactly one other
member `g`) whose host `h` disconnects, the remaining member `g` becomes the
new host, and a subsequent `control play` from `g` updates the playback
state and is broadcast to the room — it is no longer discarded as
non-host. -/
theorem claim_C5_host_migration
    (rooms : Rooms) (roomId h g : String) (room : Room) (ct : Int)
    (now : Nat) (hlk : lookupRoom rooms roomId = some room)
    (hhost : room.hostSocketId = some h)
    (hmem : h ∈ room.clients)
    (hdel : setDelete room.clients h = [g]) :
    lookupRoom (disconnect rooms h) roomId
      = some { room with clients := [g], hostSocketId := some g } ∧
    controlEvent (disconnect rooms h) g roomId "play" ct now
      = (updateRoom (disconnect rooms h) roomId
          { room with clients := [g], hostSocketId := some g,
                      state := { playing := true, currentTime := ct,
                                 lastUpdate := now } },
         [ServerEvent.control g "play" ct now true]) := by
  have hdr : disconnectRoom h room
      = some { room with clients := [g], hostSocketId := some g } := by
    unfold disconnectRoom
    rw [if_pos hmem]
    simp only [hdel, hhost]
    simp
  have h1 := lookupRoom_disconnect_some hlk hdr
  refine ⟨h1, ?_⟩
  rw [controlEvent_host "play" ct now h1 rfl, applyAction_play]
  rfl

/-- Witness for C5: host "h" of the room `{clients := ["h", "g"]}` drops;
"g" inherits the host role and its `play` at 20 succeeds and is
broadcast. -/
theorem claim_C5_witness :
    lookupRoom (disconnect
      [("r", { hostSocketId := some "h",
               state := { playing := true, currentTime := 10, lastUpdate := 3 },
               clients := ["h", "g"] })] "h") "r"
      = some { hostSocketId := some "g",
               state := { playing := true, currentTime := 10, lastUpdate := 3 },
               clients := ["g"] } ∧
    controlEvent (disconnect
      [("r", { hostSocketId := some "h",
               state := { playing := true, currentTime := 10, lastUpdate := 3 },
               clients := ["h", "g"] })] "h") "g" "r" "play" 20 5
      = ([("r", { hostSocketId := some "g",
                  state := { playing := true, currentTime := 20,
                             lastUpdate := 5 },
                  clients := ["g"] })],
         [ServerEvent.control "g" "play" 20 5 true]) :=
  claim_C5_host_migration
    [("r", { hostSocketId := some "h",
             state := { playing := true, currentTime := 10, lastUpdate := 3 },
             clients := ["h", "g"] })] "r" "h" "g"
    { hostSocketId := some "h",
      state := { playing := true, currentTime := 10, lastUpdate := 3 },
      clients := ["h", "g"] } 20 5 rfl rfl (by decide) (by decide)

/-- Claim C6: when the last member of a room disconnects, the room is
removed from the registry (its id no longer resolves), and a subsequent
`join-room` for the same identifier fails with the `RoomNotFound`
`room-error` sent to the requesting connection only. -/
theorem claim_C6_room_teardown
    (rooms : Rooms) (roomId s s2 : String) (room : Room) (asHost : Bool)
    (now : Nat) (hnd : (rooms.map Prod.fst).Nodup)
    (hlk : lookupRoom rooms roomId = some room)
    (hcl : room.clients = [s]) :
    lookupRoom (disconnect rooms s) roomId = none ∧
    joinRoom (disconnect rooms s) s2 roomId asHost now
      = (disconnect rooms s,
         [ServerEvent.roomError s2 "Room not found."]) := by
  have hdr : disconnectRoom s room = none := by
    have hm : s ∈ room.clients := by
      rw [hcl]
      exact List.mem_singleton.mpr rfl
    unfold disconnectRoom
    rw [if_pos hm]
    simp only [hcl, setDelete_singleton_self]
    simp
  have h1 := lookupRoom_disconnect_none hnd hlk hdr
  exact ⟨h1, joinRoom_not_found s2 asHost now h1⟩

/-- Witness for C6: the sole member "h" of room "r" drops; the registry
becomes empty and a rejoin attempt by "x" is rejected with
`RoomNotFound`. -/
theorem claim_C6_witness :
    lookupRoom (disconnect
      [("r", { hostSocketId := some "h",
               state := { playing := false, currentTime := 0, lastUpdate := 0 },
               clients := ["h"] })] "h") "r" = none ∧
    joinRoom (disconnect
      [("r", { hostSocketId := some "h",
               state := { playing := false, currentTime := 0, lastUpdate := 0 },
               clients := ["h"] })] "h") "x" "r" false 7
      = (disconnect
          [("r", { hostSocketId := some "h",
                   state := { playing := false, currentTime := 0,
                              lastUpdate := 0 },
                   clients := ["h"] })] "h",
         [ServerEvent.roomError "x" "Room not found."]) :=
  claim_C6_room_teardown
    [("r", { hostSocketId := some "h",
             state := { playing := false, currentTime := 0, lastUpdate := 0 },
             clients := ["h"] })] "r" "h" "x"
    { hostSocketId := some "h",
      state := { playing := false, currentTime := 0, lastUpdate := 0 },
      clients := ["h"] } false 7 (by decide) rfl rfl

/-- Claim C7 counterexample: in an empty registry (room "r1" does not
exist), a `control` event referencing "r1" emits no event at all and leaves
the registry unchanged — in particular the `RoomNotFound` `room-error` the
claim promises never reaches the sender "s1": the handler returns silently
(`if (!room) return;`), unlike `join-room`. -/
theorem claim_C7_cex :
    controlEvent [] "s1" "r1" "play" 5 100 = ([], []) ∧
    ServerEvent.roomError "s1" "Room not found."
      ∉ (controlEvent [] "s1" "r1" "play" 5 100).2 := by
  decide

/-- Claim C7 (amended): a `control` event referencing a nonexistent room is
silently dropped — registry unchanged, no broadcast and no error event sent
to anyone; only `join-room` reports `RoomNotFound` via a `room-error` sent
to the originating connection alone. -/
theorem claim_C7_amended_missing_room_control_silent
    (rooms : Rooms) (socketId roomId action : String) (ct : Int) (now : Nat)
    (asHost : Bool) (hlk : lookupRoom rooms roomId = none) :
    controlEvent rooms socketId roomId action ct now = (rooms, []) ∧
    joinRoom rooms socketId roomId asHost now
      = (rooms, [ServerEvent.roomError socketId "Room not found."]) :=
  ⟨controlEvent_not_found socketId action ct now hlk,
   joinRoom_not_found socketId asHost now hlk⟩

/-- Witness for the amended C7, at the empty registry and room id "r2". -/
theorem claim_C7_amended_witness :
    controlEvent [] "s2" "r2" "pause" 1 2 = ([], []) ∧
    joinRoom [] "s2" "r2" false 2
      = ([], [ServerEvent.roomError "s2" "Room not found."]) :=
  claim_C7_amended_missing_room_control_silent [] "s2" "r2" "pause" 1 2
    false rfl

/-- Claim C8: a `request-sync` referencing an existing room sends one
`sync-state {state, serverTime, hostSocketId}` event carrying the room's
current playback state to the requesting connection only, with no state
change; if the room does not exist the event is a silent no-op with no
error. -/
theorem claim_C8_request_sync
    (rooms : Rooms) (socketId roomId : String) (now : Nat) :
    (∀ room : Room, lookupRoom rooms roomId = some room →
       requestSync rooms socketId roomId now
         = (rooms, [ServerEvent.syncState socketId room.state now
             room.hostSocketId])) ∧
    (lookupRoom rooms roomId = none →
       requestSync rooms socketId roomId now = (rooms, [])) :=
  ⟨fun _ h => requestSync_found socketId now h,
   fun h => requestSync_not_found socketId now h⟩

/-- Witness for C8: guest "g" re-syncs from an existing room and alone
receives the snapshot; a sync against the absent id "x" does nothing. -/
theorem claim_C8_witness :
    requestSync [("r", { hostSocketId := some "h",
                         state := { playing := true, currentTime := 7,
                                    lastUpdate := 1 },
                         clients := ["h", "g"] })] "g" "r" 42
      = ([("r", { hostSocketId := some "h",
                  state := { playing := true, currentTime := 7,
                             lastUpdate := 1 },
                  clients := ["h", "g"] })],
         [ServerEvent.syncState "g"
            { playing := true, currentTime := 7, lastUpdate := 1 } 42
            (some "h")]) ∧
    requestSync [("r", { hostSocketId := some "h",
                         state := { playing := true, currentTime := 7,
                                    lastUpdate := 1 },
                         clients := ["h", "g"] })] "g" "x" 42
      = ([("r", { hostSocketId := some "h",
                  state := { playing := true, currentTime := 7,
                             lastUpdate := 1 },
                  clients := ["h", "g"] })], []) :=
  ⟨(claim_C8_request_sync
      [("r", { hostSocketId := some "h",
               state := { playing := true, currentTime := 7, lastUpdate := 1 },
               clients := ["h", "g"] })] "g" "r" 42).1
      { hostSocketId := some "h",
        state := { playing := true, currentTime := 7, lastUpdate := 1 },
        clients := ["h", "g"] } rfl,
   (claim_C8_request_sync
      [("r", { hostSocketId := some "h",
               state := { playing := true, currentTime := 7, lastUpdate := 1 },
               clients := ["h", "g"] })] "g" "x" 42).2 rfl⟩

/-- Claim C9 counterexample: the host seeks to -5 and the stored position
becomes -5, which is negative — host-supplied positions are stored
unvalidated, so position is not invariantly non-negative. -/
theorem claim_C9_cex :
    lookupRoom (run [Op.create "r" 0, Op.join "h" "r" true 1,
        Op.control "h" "r" "seek" (-5) 2]) "r"
      = some { hostSocketId := some "h",
               state := { playing := false, currentTime := -5,
                          lastUpdate := 2 },
               clients := ["h"] } ∧
    ¬((0 : Int) ≤ -5) := by
  decide

/-- Claim C9 (amended): a room's position is 0 at creation, and it stays
non-negative after every operation of a session provided every `control`
event of the session carries a non-negative `currentTime` (the handler
stores host-supplied positions as-is, without validation). -/
theorem claim_C9_amended_position_nonneg :
    (∀ now : Nat, (initialRoom now).state.currentTime = 0) ∧
    (∀ ops : List Op, (∀ op ∈ ops, op.ctlNonneg) →
       ∀ p ∈ run ops, 0 ≤ p.2.state.currentTime) :=
  ⟨fun _ => rfl, fun ops hops => posOk_run ops hops⟩

/-- Witness for the amended C9: after create/join/play-at-10, the stored
position is non-negative. -/
theorem claim_C9_witness :
    (initialRoom 5).state.currentTime = 0 ∧
    (0 : Int) ≤ (("r", { hostSocketId := some "h",
                         state := { playing := true, currentTime := 10,
                                    lastUpdate := 3 },
                         clients := ["h"] }) : String × Room).2.state.currentTime :=
  ⟨claim_C9_amended_position_nonneg.1 5,
   claim_C9_amended_position_nonneg.2
     [Op.create "r" 0, Op.join "h" "r" true 1, Op.control "h" "r" "play" 10 3]
     (by
       intro op hop
       simp only [List.mem_cons, List.not_mem_nil, or_false] at hop
       rcases hop with rfl | rfl | rfl
       · trivial
       · trivial
       · show (0 : Int) ≤ 10
         decide)
     _ (by decide)⟩

/-- Claim C10: a `control` event from the current host whose action is none
of play, pause or seek leaves the playback state (indeed the whole registry)
entirely unchanged, yet a `control {action, currentTime, serverTime,
playing}` event carrying the unrecognized action, the supplied position and
the unchanged `playing` flag is still broadcast to every member of the
room. -/
theorem claim_C10_unknown_action_broadcast
    (rooms : Rooms) (roomId socketId action : String) (room : Room)
    (ct : Int) (now : Nat) (hnd : (rooms.map Prod.fst).Nodup)
    (hlk : lookupRoom rooms roomId = some room)
    (hhost : room.hostSocketId = some socketId)
    (h1 : action ≠ "play") (h2 : action ≠ "pause") (h3 : action ≠ "seek") :
    controlEvent rooms socketId roomId action ct now
      = (rooms, room.clients.map (fun c =>
          ServerEvent.control c action ct now room.state.playing)) := by
  have hroom : ({ room with state := room.state } : Room) = room := rfl
  rw [controlEvent_host action ct now hlk hhost,
    applyAction_other room.state ct now h1 h2 h3, hroom,
    updateRoom_self hnd hlk]

/-- Witness for C10: the host sends the unknown action "stop"; the registry
is unchanged but both members still receive the broadcast. -/
theorem claim_C10_witness :
    controlEvent
      [("r", { hostSocketId := some "h",
               state := { playing := true, currentTime := 4, lastUpdate := 9 },
               clients := ["h", "g"] })] "h" "r" "stop" 11 20
      = ([("r", { hostSocketId := some "h",
                  state := { playing := true, currentTime := 4,
                             lastUpdate := 9 },
                  clients := ["h", "g"] })],
         [ServerEvent.control "h" "stop" 11 20 true,
          ServerEvent.control "g" "stop" 11 20 true]) :=
  claim_C10_unknown_action_broadcast
    [("r", { hostSocketId := some "h",
             state := { playing := true, currentTime := 4, lastUpdate := 9 },
             clients := ["h", "g"] })] "r" "h" "stop"
    { hostSocketId := some "h",
      state := { playing := true, currentTime := 4, lastUpdate := 9 },
      clients := ["h", "g"] } 11 20 (by decide) rfl rfl
    (by decide) (by decide) (by decide)

end FriendWatch
